import Mathlib

/-!
Verification development for the `sizif` repository (model checkpoint storage
with resumable FTP mirroring).  The definitions below are shallow embeddings
of `src/sizif/ftptasks.py` and `src/sizif/storage.py`; the theorems settle the
behavioural claims about those modules.
-/

namespace Sizif

/-! ## Model of `src/sizif/ftptasks.py` -/

/-- Embeds `FTP_RETRY_COUNT = 10` (ftptasks.py line 12): the attempt budget of
the download/upload retry loops. -/
def FTP_RETRY_COUNT : Nat := 10

/-- Embeds the percent-complete ratio of `ProgressTracker.__init__`
(ftptasks.py line 243): `round(self.bytes_processed / self.total_size * 100)`.
The Python expression raises `ZeroDivisionError` when `total_size == 0`, which
the embedding records as `none`; otherwise the exact rational ratio is
returned (the `round` step is irrelevant to the claims and omitted from the
payload's use sites, which only inspect definedness). -/
def trackerPercent (totalSize bytesProcessed : Nat) : Option ℚ :=
  if totalSize = 0 then none
  else some ((bytesProcessed : ℚ) / (totalSize : ℚ) * 100)

/-- Behaviour of the network during one iteration of the download loop
(ftptasks.py lines 59-97): `failConn` = `connect()`/`voidcmd`/`size()` raises
an ftplib error before the tracker is built; `failRetr d` = the sizing
succeeded and `retrbinary` delivered `d` bytes before raising an ftplib
error; `ok` = `retrbinary` ran to completion. -/
inductive DStep : Type
  | failConn : DStep
  | failRetr : Nat → DStep
  | ok : DStep
deriving DecidableEq

/-- Result of `download_task`, paired with the final value of `f.tell()`:
`success`/`failure` are the `(True, None)` / `(False, exception)` returns,
`raisedFtp` is the `raise e` on budget exhaustion with `die_on_ftperrors`,
`raisedZeroDiv` is the uncaught `ZeroDivisionError` escaping
`ProgressTracker.__init__` (`ftplib.all_errors` does not cover it), and
`outOfSteps` marks that the supplied network trace was too short to decide
the run. -/
inductive TaskOutcome : Type
  | success : Nat → TaskOutcome
  | failure : Nat → TaskOutcome
  | raisedFtp : Nat → TaskOutcome
  | raisedZeroDiv : Nat → TaskOutcome
  | outOfSteps : Nat → TaskOutcome
deriving DecidableEq

/-- The `while downloading` loop of `download_task` (ftptasks.py lines 55-97).
State: `pos` is `f.tell()` (bytes on disk so far), `attempts` the remaining
budget.  The second component of the result lists the `rest` offset passed to
each issued `RETR` (line 73-76: offset `0` uses a plain retrieve, a nonzero
offset passes `rest=f.tell()`); iterations whose failure happens before the
retrieve contribute no offset.  `ProgressTracker(target_size, f.tell())` is
built right after the `size` query, so a zero `target_size` aborts the whole
task with an uncaught `ZeroDivisionError` before any retrieve. -/
def dlLoop (targetSize : Nat) (die : Bool) : Nat → Nat → List DStep → TaskOutcome × List Nat
  | pos, _, [] => (TaskOutcome.outOfSteps pos, [])
  | pos, attempts, DStep.failConn :: rest =>
      if attempts - 1 < 1 then
        (if die then TaskOutcome.raisedFtp pos else TaskOutcome.failure pos, [])
      else
        dlLoop targetSize die pos (attempts - 1) rest
  | pos, attempts, DStep.failRetr d :: rest =>
      match trackerPercent targetSize pos with
      | none => (TaskOutcome.raisedZeroDiv pos, [])
      | some _ =>
          if attempts - 1 < 1 then
            (if die then TaskOutcome.raisedFtp (pos + d) else TaskOutcome.failure (pos + d),
             [pos])
          else
            let r := dlLoop targetSize die (pos + d) (attempts - 1) rest
            (r.1, pos :: r.2)
  | pos, _, DStep.ok :: _ =>
      match trackerPercent targetSize pos with
      | none => (TaskOutcome.raisedZeroDiv pos, [])
      | some _ => (TaskOutcome.success (pos + (targetSize - pos)), [pos])

/-- Embeds `download_task` (ftptasks.py lines 25-102).  `existingLocalLen` is
the length the local target file has when the call starts.  Line 54 opens the
file with `open(to_filepath, 'w+b')`: mode `w+b` truncates the file, so
`f.tell()` is `0` no matter what was on disk — the parameter is deliberately
unused, exactly as the pre-existing content is by the Python code ("Local
file will be rewritten", line 32).  `targetSize` is the `ftp.size()` answer
and `steps` the network behaviour of the successive attempts. -/
def download_task (existingLocalLen targetSize : Nat) (die : Bool) (steps : List DStep) :
    TaskOutcome × List Nat :=
  dlLoop targetSize die 0 FTP_RETRY_COUNT steps

/-- Behaviour of the network during one iteration of the upload loop
(ftptasks.py lines 134-178): `failConn` = `connect()`/`nlst()`/`size()`
raises before the seek/tracker; `failStor listed reportedSize` = the listing
answered (`listed` = target name present, `reportedSize` = what `size()`
would report) and `storbinary` then raised; `ok listed reportedSize` = same
but `storbinary` completed. -/
inductive UStep : Type
  | failConn : UStep
  | failStor : Bool → Nat → UStep
  | ok : Bool → Nat → UStep
deriving DecidableEq

/-- Result of `upload_task`, mirrors `TaskOutcome`. -/
inductive UOutcome : Type
  | success : UOutcome
  | failure : UOutcome
  | raisedFtp : UOutcome
  | raisedZeroDiv : UOutcome
  | outOfSteps : UOutcome
deriving DecidableEq

/-- The `while uploading` loop of `upload_task` (ftptasks.py lines 127-178).
`firstAccess` embeds the `first_access` flag: on the attempt that first
reaches the tracker, an existing remote file is "rewritten" (`rest_pos = 0`,
lines 143-145); only on later attempts is `ftp.size(to_filename)` queried and
used as the resume offset (lines 146-150), and only when the name is in the
fresh `nlst()` listing.  The second result component lists the `rest_pos` of
each issued `STOR` (line 155-156, `rest=(rest_pos or None)`).
`ProgressTracker(target_size, rest_pos)` at line 153 raises an uncaught
`ZeroDivisionError` when the source file size is `0`. -/
def ulLoop (targetSize : Nat) (die : Bool) : Bool → Nat → List UStep → UOutcome × List Nat
  | _, _, [] => (UOutcome.outOfSteps, [])
  | firstAccess, attempts, UStep.failConn :: rest =>
      if attempts - 1 < 1 then
        (if die then UOutcome.raisedFtp else UOutcome.failure, [])
      else
        ulLoop targetSize die firstAccess (attempts - 1) rest
  | firstAccess, attempts, UStep.failStor listed rsize :: rest =>
      let restPos := if listed && !firstAccess then rsize else 0
      match trackerPercent targetSize restPos with
      | none => (UOutcome.raisedZeroDiv, [])
      | some _ =>
          if attempts - 1 < 1 then
            (if die then UOutcome.raisedFtp else UOutcome.failure, [restPos])
          else
            let r := ulLoop targetSize die false (attempts - 1) rest
            (r.1, restPos :: r.2)
  | firstAccess, _, UStep.ok listed rsize :: _ =>
      let restPos := if listed && !firstAccess then rsize else 0
      match trackerPercent targetSize restPos with
      | none => (UOutcome.raisedZeroDiv, [])
      | some _ => (UOutcome.success, [restPos])

/-- Embeds `upload_task` (ftptasks.py lines 105-183): `sourceSize` is
`os.path.getsize(from_filepath)`, `first_access` starts `True`, the budget is
`FTP_RETRY_COUNT`. -/
def upload_task (sourceSize : Nat) (die : Bool) (steps : List UStep) : UOutcome × List Nat :=
  ulLoop sourceSize die true FTP_RETRY_COUNT steps

/-- Spec-side description of the `RETR` offsets a resuming download should
use: starting from on-disk length `pos`, after a failed attempt that
delivered `d` bytes the next attempt starts from `pos + d`. -/
def restOffsets (pos : Nat) : List Nat → List Nat
  | [] => [pos]
  | d :: rest => pos :: restOffsets (pos + d) rest

/-- The resume offset a retry upload attempt uses, given what the remote
reports: the freshly queried size when the name is listed, `0` otherwise. -/
def uploadRestOf (p : Bool × Nat) : Nat := if p.1 then p.2 else 0

/-! ## Model of `src/sizif/storage.py` -/

/-- Python exceptions that the storage layer can surface. -/
inductive PyErr : Type
  | ftpError : Nat → PyErr
  | fileNotFound : PyErr
deriving DecidableEq

/-- A JSON-serialisable parameter record (`params` dict / the persisted
status): an insertion-ordered association list with unique keys, exactly the
observable behaviour of a Python `dict` round-tripped through `json`. -/
abbrev Params := List (String × String)

/-- `d[key]` lookup on a Python dict. -/
def dictGet : Params → String → Option String
  | [], _ => none
  | (k, v) :: rest, key => if k = key then some v else dictGet rest key

/-- `d[key] = val` on a Python dict: replaces in place, appends if absent. -/
def dictSet : Params → String → String → Params
  | [], key, val => [(key, val)]
  | (k, v) :: rest, key, val =>
      if k = key then (k, val) :: rest else (k, v) :: dictSet rest key val

/-- The slice of the local filesystem a monitor touches: the set of existing,
readable files (`os.path.isfile` ∧ `os.access(..., R_OK)`), the content of
the status file at `state_filepath` (`none` = absent), and the chronological
trace of successful `os.remove` calls (storage.py line 163). -/
structure FS : Type where
  files : List String
  status : Option Params
  removedTrace : List String
deriving DecidableEq

/-- In-memory state of a `FileCheckpointsMonitor` (storage.py lines 101-103,
91): `checkpoints` history list, `current_checkpoint`, `current_params`, and
the coerced `rotate_number`. -/
structure Monitor : Type where
  checkpoints : List String
  current_checkpoint : String
  current_params : Params
  rotate_number : Int
deriving DecidableEq

/-- Embeds `FileCheckpointsMonitor._add_checkpoint` (storage.py lines
206-209): replaces the current params and pointer, appends to the history
only when the path is non-empty. -/
def _add_checkpoint (m : Monitor) (cp : String) (params : Params) : Monitor :=
  let m1 : Monitor := { m with current_params := params, current_checkpoint := cp }
  if cp ≠ "" then { m1 with checkpoints := m1.checkpoints ++ [cp] } else m1

/-- Embeds `_save_current_status` (storage.py lines 200-204): mutates
`current_params['checkpoint']` in place and dumps the record over the status
file. -/
def _save_current_status (m : Monitor) (fs : FS) : Monitor × FS :=
  let ps := dictSet m.current_params "checkpoint" m.current_checkpoint
  ({ m with current_params := ps }, { fs with status := some ps })

/-- Embeds `reset` (storage.py lines 173-180): clears the pointer and the
history, then persists — note `current_params` itself is not cleared. -/
def reset (m : Monitor) (fs : FS) : Monitor × FS :=
  _save_current_status { m with current_checkpoint := "", checkpoints := [] } fs

/-- Embeds the `os.remove(i)` call of `rotate_checkpoints` (storage.py line
163): removing a missing file raises `OSError`, which is caught and logged,
so only removals of present files take effect and are recorded. -/
def osRemove (fs : FS) (p : String) : FS :=
  if fs.files.contains p then
    { fs with files := fs.files.erase p, removedTrace := fs.removedTrace ++ [p] }
  else fs

/-- Embeds `int(rotate_number or self.rotate_number)` (storage.py line 153):
`None` and `0` both fall back to the configured default. -/
def resolveRotateArg : Option Int → Int → Int
  | none, dflt => dflt
  | some n, dflt => if n = 0 then dflt else n

/-- Embeds `rotate_checkpoints` (storage.py lines 140-171): resolve the
count, short-circuit when it is `< 1`, keep the `rotate_number` newest
entries (`self.checkpoints[-rotate_number:]`), best-effort-remove the evicted
ones oldest first, and return `bool(new_size - old_size)`. -/
def rotate_checkpoints (m : Monitor) (fs : FS) (arg : Option Int) : Bool × Monitor × FS :=
  let rn := resolveRotateArg arg m.rotate_number
  if rn < 1 then (false, m, fs)
  else
    let oldSize := m.checkpoints.length
    let toRemove := m.checkpoints.take (oldSize - rn.toNat)
    let kept := m.checkpoints.drop (oldSize - rn.toNat)
    let fs1 := toRemove.foldl osRemove fs
    (decide (kept.length ≠ oldSize), { m with checkpoints := kept }, fs1)

/-- Embeds `FileCheckpointsMonitor.on_checkpoint_written` (storage.py lines
117-138): raise `FileNotFoundError` unless the file exists and is readable,
otherwise add the checkpoint, persist the status, and rotate with the
default count.  The raised-error case returns the states untouched, matching
the Python `raise` before any mutation. -/
def on_checkpoint_written (m : Monitor) (fs : FS) (fp : String) (params : Params) :
    Option PyErr × Monitor × FS :=
  if fp ∈ fs.files then
    let m1 := _add_checkpoint m fp params
    let p2 := _save_current_status m1 fs
    let r := rotate_checkpoints p2.1 p2.2 none
    (none, r.2.1, r.2.2)
  else (some PyErr.fileNotFound, m, fs)

/-- Embeds `_load_current_status` (storage.py lines 184-198): a missing
status file or a record without the `checkpoint` key degrades to `reset`;
otherwise the record is adopted via `_add_checkpoint`, and — when the dead
checkpoint check is enabled — a pointer whose file is not present and
readable triggers `reset` as well. -/
def _load_current_status (m : Monitor) (fs : FS) (reset_on_deadcheckpoint : Bool) :
    Monitor × FS :=
  match fs.status with
  | none => reset m fs
  | some data =>
      match dictGet data "checkpoint" with
      | none => reset m fs
      | some cp =>
          let m1 := _add_checkpoint m cp data
          if reset_on_deadcheckpoint && !(fs.files.contains cp) then reset m1 fs
          else (m1, fs)

/-- Embeds `int(rotate_number) or -1` (storage.py line 91). -/
def coerceRotateNumber (rn : Int) : Int := if rn = 0 then -1 else rn

/-- Embeds `FileCheckpointsMonitor.__init__` together with `_load_statefile`
(storage.py lines 84-113) for a given already-computed set of paths: fresh
in-memory fields, then either write a blank status (no status file yet) or
load the existing one with the dead-checkpoint check enabled. -/
def newMonitor (rotate_number : Int) (fs : FS) : Monitor × FS :=
  let m : Monitor :=
    { checkpoints := []
      current_checkpoint := ""
      current_params := []
      rotate_number := coerceRotateNumber rotate_number }
  match fs.status with
  | none => reset m fs
  | some _ => _load_current_status m fs true

/-! ## Model of the path/name computations of `FileCheckpointsMonitor.__init__`
(storage.py lines 93-100). -/

/-- A character kept by `re.sub(r'[^\w.]', '', version)`: word characters
(`[A-Za-z0-9_]` for the ASCII inputs at hand) and the dot. -/
def wordChar (c : Char) : Bool := c.isAlphanum || c = '_' || c = '.'

/-- Embeds `re.sub(r'[^\w.]', '', str(version))` (storage.py line 93). -/
def sanitizeVersion (s : String) : String :=
  String.mk (s.toList.filter wordChar)

/-- A character matched by the class `[/\\;\s]` of storage.py line 97. -/
def sepChar (c : Char) : Bool :=
  c = '/' || c = '\\' || c = ';' || c = ' ' || c = '\t' || c = '\n' ||
    c = '\x0b' || c = '\x0c' || c = '\r'

/-- Run-collapsing worker: `prevSep` records whether the previous character
belonged to a separator run (whose `_` was already emitted). -/
def collapseSepsAux (prevSep : Bool) : List Char → List Char
  | [] => []
  | c :: rest =>
      if sepChar c then
        if prevSep then collapseSepsAux true rest
        else '_' :: collapseSepsAux true rest
      else c :: collapseSepsAux false rest

/-- Embeds `re.sub(r'[/\\;\s]+', '_', str(file_template))` (storage.py line
97): every maximal run of separator characters collapses to one `_`. -/
def collapseSeps (l : List Char) : List Char := collapseSepsAux false l

/-- Separator-run collapsing lifted to strings. -/
def sanitizeTemplate (s : String) : String :=
  String.mk (collapseSeps s.toList)

/-- Number of leading `/` characters. -/
def leadingSlashes : List Char → Nat
  | '/' :: rest => leadingSlashes rest + 1
  | _ => 0

/-- Does the string begin with `/`. -/
def startsWithSlash (s : String) : Bool :=
  match s.toList with
  | c :: _ => c == '/'
  | [] => false

/-- Does the string end with `/`. -/
def endsWithSlash (s : String) : Bool := s.toList.getLast? == some '/'

/-- Embeds `posixpath.join` for two components, as used by `os.path.join`
(storage.py lines 95, 100) on POSIX. -/
def pathJoin (a b : String) : String :=
  if startsWithSlash b then b
  else if a = "" then b
  else if endsWithSlash a then a ++ b
  else a ++ "/" ++ b

/-- `str.split('/')` on the character list. -/
def splitSlash : List Char → List (List Char)
  | [] => [[]]
  | c :: rest =>
      let r := splitSlash rest
      if c = '/' then [] :: r
      else
        match r with
        | [] => [[c]]
        | h :: t => (c :: h) :: t

/-- `'/'.join` on character-list components. -/
def joinSlash : List (List Char) → List Char
  | [] => []
  | [x] => x
  | x :: rest => x ++ '/' :: joinSlash rest

/-- Embeds `posixpath.normpath` (used via `os.path.normpath` at storage.py
lines 95, 100), following the CPython algorithm: drop empty and `.`
components, resolve `..` against the accumulated prefix, and restore the
leading slashes (a double slash is preserved, three or more collapse to
one). -/
def normpath (path : String) : String :=
  let cs := path.toList
  if cs.isEmpty then "."
  else
    let nSlash := leadingSlashes cs
    let comps := splitSlash cs
    let newComps := comps.foldl
      (fun acc comp =>
        if comp.isEmpty || comp == ['.'] then acc
        else if comp != ['.', '.'] || (nSlash == 0 && acc.isEmpty) ||
            (acc.getLast? == some ['.', '.']) then acc ++ [comp]
        else acc.dropLast)
      []
    let pre : List Char :=
      if nSlash == 2 then ['/', '/'] else if 1 ≤ nSlash then ['/'] else []
    let r := pre ++ joinSlash newComps
    if r.isEmpty then "." else String.mk r

/-- The three derived names of `FileCheckpointsMonitor.__init__` (storage.py
lines 93-100). -/
structure MonitorPaths : Type where
  state_filename : String
  state_filepath : String
  checkpoint_path : String
deriving DecidableEq

/-- Embeds the name computations of `FileCheckpointsMonitor.__init__`
(storage.py lines 93-100): sanitize the version, build
`currentstate_<version>.json` and `model_<version>_<sanitized template>`,
and normalise both joined paths. -/
def monitorPaths (version file_template folder : String) : MonitorPaths :=
  let mv := sanitizeVersion version
  let sfn := "currentstate_" ++ mv ++ ".json"
  let fname := "model_" ++ mv ++ "_" ++ sanitizeTemplate file_template
  { state_filename := sfn
    state_filepath := normpath (pathJoin folder sfn)
    checkpoint_path := normpath (pathJoin folder fname) }

/-! ## Model of `FTPFileCheckpointsMonitor` foreground error surfacing
(storage.py lines 342-364 and 436-448). -/

/-- The `thread_dead` / `thread_result` pair shared between the worker pool
and the foreground caller (storage.py lines 308-309). -/
structure TState : Type where
  thread_dead : Bool
  thread_result : Option PyErr
deriving DecidableEq

/-- Embeds `__thread_check` (storage.py lines 436-448): when the flag is set
and `die_on_ftperrors` holds, `raise self.thread_result` fires *before* the
lines that clear the flag, so the state is returned unchanged; without the
die flag the error is logged and both fields are cleared. -/
def threadCheck (die_on_ftperrors : Bool) (ts : TState) : Option PyErr × TState :=
  if ts.thread_dead then
    if die_on_ftperrors then (ts.thread_result, ts)
    else (none, { thread_dead := false, thread_result := none })
  else (none, ts)

/-- Embeds `FTPFileCheckpointsMonitor.on_checkpoint_written` (storage.py
lines 342-364): `__thread_check` first, then the local
`on_checkpoint_written`, then the synchronous status upload (always
`die_on_ftperrors=True`; `statusUpload` is the error it raises, if any), then
the asynchronous checkpoint upload enqueue (no immediate state change). -/
def ftpOnCheckpointWritten (die_on_ftperrors : Bool) (statusUpload : Option PyErr)
    (ts : TState) (m : Monitor) (fs : FS) (fp : String) (params : Params) :
    Option PyErr × TState × Monitor × FS :=
  let t := threadCheck die_on_ftperrors ts
  match t.1 with
  | some e => (some e, t.2, m, fs)
  | none =>
      let w := on_checkpoint_written m fs fp params
      match w.1 with
      | some e => (some e, t.2, w.2.1, w.2.2)
      | none =>
          match statusUpload with
          | some e => (some e, t.2, w.2.1, w.2.2)
          | none => (none, t.2, w.2.1, w.2.2)

/-- Folds `on_checkpoint_written` over a list of `(path, params)` writes,
stopping at the first raised error — the call pattern of a training loop
notifying the monitor once per written checkpoint. -/
def writeAll (m : Monitor) (fs : FS) : List (String × Params) → Option PyErr × Monitor × FS
  | [] => (none, m, fs)
  | (p, ps) :: rest =>
      let w := on_checkpoint_written m fs p ps
      match w.1 with
      | some e => (some e, w.2.1, w.2.2)
      | none => writeAll w.2.1 w.2.2 rest

/-- The `min k c` newest of `k` chronologically written checkpoints. -/
def keptWindow (c : Nat) (done : List String) : List String :=
  done.drop (done.length - c)

/-- The checkpoints older than the kept window, oldest first. -/
def evicted (c : Nat) (done : List String) : List String :=
  done.take (done.length - c)

/-- Monitor state reached after the writes in `done` on a fresh monitor with
rotation count `c`: the history is the kept window. -/
def winMonitor (c : Nat) (done : List String) (cc : String) (cp : Params) : Monitor :=
  { checkpoints := keptWindow c done
    current_checkpoint := cc
    current_params := cp
    rotate_number := (c : Int) }

/-- Filesystem state reached after the writes in `done`: the evicted
checkpoints are gone from disk and recorded, oldest first, in the removal
trace. -/
def winFS (c : Nat) (files₀ : List String) (done : List String) (trace₀ : List String)
    (st : Option Params) : FS :=
  { files := files₀.filter (fun q => decide (q ∉ evicted c done))
    status := st
    removedTrace := trace₀ ++ evicted c done }

/-! ## Helper lemmas -/

theorem dictGet_dictSet_self (d : Params) (k v : String) :
    dictGet (dictSet d k v) k = some v := by
  induction d with
  | nil => simp [dictGet, dictSet]
  | cons hd tl ih =>
      obtain ⟨k1, v1⟩ := hd
      by_cases h : k1 = k
      · simp [dictGet, dictSet, h]
      · simp [dictGet, dictSet, h, ih]

theorem dictGet_dictSet_ne (d : Params) (k k1 v : String) (h : k1 ≠ k) :
    dictGet (dictSet d k v) k1 = dictGet d k1 := by
  induction d with
  | nil => simp [dictGet, dictSet, Ne.symm h]
  | cons hd tl ih =>
      obtain ⟨k2, v2⟩ := hd
      by_cases h2 : k2 = k
      · subst h2
        simp [dictGet, dictSet, Ne.symm h]
      · by_cases h3 : k2 = k1 <;> simp [dictGet, dictSet, h2, h3, h, ih]

theorem dictSet_dictSet (d : Params) (k v v1 : String) :
    dictSet (dictSet d k v) k v1 = dictSet d k v1 := by
  induction d with
  | nil => simp [dictSet]
  | cons hd tl ih =>
      obtain ⟨k2, v2⟩ := hd
      by_cases h : k2 = k <;> simp [dictSet, h, ih]

theorem _add_checkpoint_cc (m : Monitor) (cp : String) (ps : Params) :
    (_add_checkpoint m cp ps).current_checkpoint = cp := by
  unfold _add_checkpoint
  split <;> rfl

theorem _add_checkpoint_params (m : Monitor) (cp : String) (ps : Params) :
    (_add_checkpoint m cp ps).current_params = ps := by
  unfold _add_checkpoint
  split <;> rfl

theorem _add_checkpoint_rn (m : Monitor) (cp : String) (ps : Params) :
    (_add_checkpoint m cp ps).rotate_number = m.rotate_number := by
  unfold _add_checkpoint
  split <;> rfl

theorem osRemove_status (fs : FS) (p : String) : (osRemove fs p).status = fs.status := by
  unfold osRemove
  split <;> rfl

theorem foldl_osRemove_status (rs : List String) (fs : FS) :
    (rs.foldl osRemove fs).status = fs.status := by
  induction rs generalizing fs with
  | nil => rfl
  | cons r rest ih => rw [List.foldl_cons, ih, osRemove_status]

theorem rotate_cc (m : Monitor) (fs : FS) (arg : Option Int) :
    (rotate_checkpoints m fs arg).2.1.current_checkpoint = m.current_checkpoint := by
  simp only [rotate_checkpoints]
  split <;> rfl

theorem rotate_params (m : Monitor) (fs : FS) (arg : Option Int) :
    (rotate_checkpoints m fs arg).2.1.current_params = m.current_params := by
  simp only [rotate_checkpoints]
  split <;> rfl

theorem rotate_rn (m : Monitor) (fs : FS) (arg : Option Int) :
    (rotate_checkpoints m fs arg).2.1.rotate_number = m.rotate_number := by
  simp only [rotate_checkpoints]
  split <;> rfl

theorem rotate_status (m : Monitor) (fs : FS) (arg : Option Int) :
    (rotate_checkpoints m fs arg).2.2.status = fs.status := by
  simp only [rotate_checkpoints]
  split
  · rfl
  · exact foldl_osRemove_status _ _

theorem on_checkpoint_written_none (m : Monitor) (fs : FS) (fp : String) (params : Params)
    (h : fp ∈ fs.files) :
    (on_checkpoint_written m fs fp params).1 = none := by
  simp [on_checkpoint_written, h]

theorem on_checkpoint_written_cc (m : Monitor) (fs : FS) (fp : String) (params : Params)
    (h : fp ∈ fs.files) :
    (on_checkpoint_written m fs fp params).2.1.current_checkpoint = fp := by
  simp only [on_checkpoint_written, if_pos h]
  rw [rotate_cc]
  simp [_save_current_status, _add_checkpoint_cc]

theorem on_checkpoint_written_params (m : Monitor) (fs : FS) (fp : String) (params : Params)
    (h : fp ∈ fs.files) :
    (on_checkpoint_written m fs fp params).2.1.current_params =
      dictSet params "checkpoint" fp := by
  simp only [on_checkpoint_written, if_pos h]
  rw [rotate_params]
  simp [_save_current_status, _add_checkpoint_params, _add_checkpoint_cc]

theorem on_checkpoint_written_status (m : Monitor) (fs : FS) (fp : String) (params : Params)
    (h : fp ∈ fs.files) :
    (on_checkpoint_written m fs fp params).2.2.status =
      some (dictSet params "checkpoint" fp) := by
  simp only [on_checkpoint_written, if_pos h]
  rw [rotate_status]
  simp [_save_current_status, _add_checkpoint_params, _add_checkpoint_cc]

theorem on_checkpoint_written_mem (m : Monitor) (fs : FS) (fp : String) (params : Params)
    (h : (on_checkpoint_written m fs fp params).1 = none) : fp ∈ fs.files := by
  by_contra hmem
  simp [on_checkpoint_written, hmem] at h

/-! ## Claims -/

/-- C2 — code-bug evidence.  The spec requires that a zero-byte transfer
"must not error on size-ratio computations", but `ProgressTracker.__init__`
computes `bytes_processed / total_size * 100`, so both `download_task` (with
remote size 0) and `upload_task` (with local source size 0) die with an
uncaught `ZeroDivisionError` — it is not among `ftplib.all_errors` — instead
of completing: the percent ratio is undefined at `total_size = 0` and both
task models abort with `raisedZeroDiv` on their very first attempt. -/
theorem C2_zero_size_zero_division :
    trackerPercent 0 0 = none ∧
    download_task 0 0 false [DStep.ok] = (TaskOutcome.raisedZeroDiv 0, []) ∧
    download_task 0 0 false [DStep.failRetr 0] = (TaskOutcome.raisedZeroDiv 0, []) ∧
    upload_task 0 false [UStep.ok false 0] = (UOutcome.raisedZeroDiv, []) ∧
    upload_task 0 false [UStep.failStor true 0] = (UOutcome.raisedZeroDiv, []) :=
  ⟨rfl, rfl, rfl, rfl, rfl⟩

/-- C3 — counterexample.  The claim says that with `die_on_ftperrors` the
next foreground call raises the recorded error *and clears the flag*.  In
`__thread_check` the `raise self.thread_result` fires before the
`self.thread_dead = False` line, so after the raising call the flag is still
set: the claimed post-state `thread_dead = false` is refuted at a concrete
dead state. -/
theorem C3_counterexample :
    (threadCheck true { thread_dead := true, thread_result := some (PyErr.ftpError 0) }).1 =
      some (PyErr.ftpError 0) ∧
    (threadCheck true
        { thread_dead := true, thread_result := some (PyErr.ftpError 0) }).2.thread_dead =
      true :=
  ⟨rfl, rfl⟩

/-- C3 — amended.  When the background-failure flag is set at the next
`on_checkpoint_written`: with `die_on_ftperrors` the call raises the recorded
error immediately, before doing any of its own work (monitor and filesystem
are untouched), but does *not* clear the flag — the same recorded failure is
raised again by every subsequent call; without `die_on_ftperrors` the call
logs the error, clears the flag and the recorded error, and proceeds
normally.  With the flag unset, `__thread_check` is a no-op. -/
theorem C3_thread_flag (res : Option PyErr) (e : PyErr) (up : Option PyErr)
    (m : Monitor) (fs : FS) (fp : String) (params : Params) :
    threadCheck true { thread_dead := true, thread_result := res } =
      (res, { thread_dead := true, thread_result := res }) ∧
    threadCheck false { thread_dead := true, thread_result := res } =
      (none, { thread_dead := false, thread_result := none }) ∧
    (∀ die : Bool, threadCheck die { thread_dead := false, thread_result := res } =
      (none, { thread_dead := false, thread_result := res })) ∧
    ftpOnCheckpointWritten true up { thread_dead := true, thread_result := some e }
        m fs fp params =
      (some e, { thread_dead := true, thread_result := some e }, m, fs) := by
  refine ⟨rfl, rfl, fun die => ?_, rfl⟩
  cases die <;> rfl

/-- C4 — confirmed.  Registering a path that does not exist (or is not
readable) raises `FileNotFoundError` and leaves the monitor's history,
current pointer, current params, and the persisted status file untouched:
the call returns the error together with the unchanged states. -/
theorem C4_missing_file_rejected (m : Monitor) (fs : FS) (fp : String) (params : Params)
    (h : fp ∉ fs.files) :
    on_checkpoint_written m fs fp params = (some PyErr.fileNotFound, m, fs) := by
  simp [on_checkpoint_written, h]

/-- Witness for C4 at a concrete input. -/
theorem C4_missing_file_rejected_witness :
    on_checkpoint_written ⟨[], "", [], 5⟩ ⟨["votka/model_1_a"], none, []⟩ "votka/model_1_b" [] =
      (some PyErr.fileNotFound, ⟨[], "", [], 5⟩, ⟨["votka/model_1_a"], none, []⟩) :=
  C4_missing_file_rejected _ _ _ _ (by decide)

/-- C8 — counterexample.  With version `"24/"`, template `"w/{epoch}.hdf5"`
and folder `"./votka//"` the checkpoint filename template is
`model_24_w_{epoch}.hdf5` — a *single* underscore between the version and the
sanitized template, because `re.sub(r'[/\\;\s]+', '_', "w/{epoch}.hdf5")`
produces `w_{epoch}.hdf5` with no leading separator — not the claimed
`model_24__w_{epoch}.hdf5`. -/
theorem C8_counterexample :
    (monitorPaths "24/" "w/{epoch}.hdf5" "./votka//").checkpoint_path =
      "votka/model_24_w_{epoch}.hdf5" ∧
    (monitorPaths "24/" "w/{epoch}.hdf5" "./votka//").checkpoint_path ≠
      "votka/model_24__w_{epoch}.hdf5" := by
  constructor
  · decide
  · decide

/-- C8 — amended.  Constructing a monitor with version `"24/"`, template
`"w/{epoch}.hdf5"` and folder `"./votka//"` produces state filename
`currentstate_24.json`, state file path `votka/currentstate_24.json` (the
folder normalizes to `votka/`), and checkpoint path template
`votka/model_24_w_{epoch}.hdf5` (single underscore after the version; a
double underscore would arise only from a template starting with a
separator, such as the `"/weights/..."` of the repository's test). -/
theorem C8_paths :
    monitorPaths "24/" "w/{epoch}.hdf5" "./votka//" =
      { state_filename := "currentstate_24.json"
        state_filepath := "votka/currentstate_24.json"
        checkpoint_path := "votka/model_24_w_{epoch}.hdf5" } := by
  decide

/-- C9 — confirmed.  `rotate_checkpoints` returns `bool(new_size -
old_size)`: true exactly when the kept history shrank, i.e. files were
removed; for a resolved never-rotate count (`< 1` after the `0`/`None`
fallback to the configured default) it short-circuits to `false` with
nothing touched; and when the history is already within the limit it returns
`false`. -/
theorem C9_rotate_return_value (m : Monitor) (fs : FS) (arg : Option Int) :
    ((rotate_checkpoints m fs arg).1 = true ↔
      (rotate_checkpoints m fs arg).2.1.checkpoints.length ≠ m.checkpoints.length) ∧
    (resolveRotateArg arg m.rotate_number < 1 →
      rotate_checkpoints m fs arg = (false, m, fs)) ∧
    (1 ≤ resolveRotateArg arg m.rotate_number →
      m.checkpoints.length ≤ (resolveRotateArg arg m.rotate_number).toNat →
      (rotate_checkpoints m fs arg).1 = false) := by
  by_cases h : resolveRotateArg arg m.rotate_number < 1
  · refine ⟨?_, fun _ => ?_, fun h1 _ => absurd h (by omega)⟩
    · simp [rotate_checkpoints, h]
    · simp [rotate_checkpoints, h]
  · refine ⟨?_, fun h1 => absurd h1 h, fun _ hle => ?_⟩
    · simp [rotate_checkpoints, h]
    · simp [rotate_checkpoints, h, Nat.sub_eq_zero_of_le hle]

/-- Witness for C9 at concrete inputs: three checkpoints with rotate count 2
remove one file (returns true); the sentinel `-1` is a no-op returning
false; a history within the limit returns false. -/
theorem C9_rotate_return_value_witness :
    ((rotate_checkpoints ⟨["a", "b", "c"], "c", [], 2⟩ ⟨["a", "b", "c"], none, []⟩ none).1 =
        true ↔ (rotate_checkpoints ⟨["a", "b", "c"], "c", [], 2⟩
        ⟨["a", "b", "c"], none, []⟩ none).2.1.checkpoints.length ≠ 3) ∧
    rotate_checkpoints ⟨["a", "b", "c"], "c", [], -1⟩ ⟨["a", "b", "c"], none, []⟩ none =
      (false, ⟨["a", "b", "c"], "c", [], -1⟩, ⟨["a", "b", "c"], none, []⟩) ∧
    (rotate_checkpoints ⟨["a", "b"], "b", [], 5⟩ ⟨["a", "b"], none, []⟩ none).1 = false :=
  ⟨(C9_rotate_return_value ⟨["a", "b", "c"], "c", [], 2⟩ ⟨["a", "b", "c"], none, []⟩ none).1,
   (C9_rotate_return_value ⟨["a", "b", "c"], "c", [], -1⟩ ⟨["a", "b", "c"], none, []⟩
      none).2.1 (by decide),
   (C9_rotate_return_value ⟨["a", "b"], "b", [], 5⟩ ⟨["a", "b"], none, []⟩ none).2.2
      (by decide) (by decide)⟩

theorem dlLoop_failRetr_then_ok (target : Nat) (die : Bool) (hT : target ≠ 0) :
    ∀ (ds : List Nat) (pos attempts : Nat), ds.length + 1 ≤ attempts →
    dlLoop target die pos attempts (ds.map DStep.failRetr ++ [DStep.ok]) =
      (TaskOutcome.success (pos + ds.sum + (target - (pos + ds.sum))), restOffsets pos ds) := by
  intro ds
  induction ds with
  | nil =>
      intro pos attempts _
      simp [dlLoop, trackerPercent, hT, restOffsets]
  | cons d rest ih =>
      intro pos attempts hA
      simp only [List.length_cons] at hA
      have h1 : ¬ attempts - 1 < 1 := by omega
      have h2 : rest.length + 1 ≤ attempts - 1 := by omega
      simp only [List.map_cons, List.cons_append, dlLoop, trackerPercent, hT, if_false,
        if_neg h1, List.append_eq]
      rw [ih (pos + d) (attempts - 1) h2]
      simp only [restOffsets, List.sum_cons, Prod.mk.injEq, and_true]
      congr 1
      omega

/-- C1 — counterexample.  A local partial file of `L = 1` byte with remote
size 2: the claim predicts the transfer resumes from offset 1, but
`download_task` opens the local file in mode `w+b`, truncating it, so the
single retrieve is issued at offset 0 — and 2 bytes get re-transferred
although one of them was already on disk. -/
theorem C1_counterexample :
    (download_task 1 2 false [DStep.ok]).2 = [0] ∧
    (download_task 1 2 false [DStep.ok]).2 ≠ [1] ∧
    (download_task 1 2 false [DStep.ok]).1 = TaskOutcome.success 2 :=
  ⟨rfl, by decide, rfl⟩

/-- C1 — amended.  `download_task` truncates the local target on open (mode
`w+b`), so the transfer always starts from byte 0 regardless of any bytes a
previously interrupted process left behind (the result does not depend on
`L` at all); *within* a single call, after each mid-transfer transport error
that delivered `d` bytes the next attempt's `RETR` offset is the current
on-disk length at retry time (the running sum of deliveries, starting at 0,
as listed by `restOffsets 0 ds`), and on success the final local file length
equals the queried remote size. -/
theorem C1_download_truncates_then_resumes (L target : Nat) (die : Bool) (ds : List Nat)
    (hT : target ≠ 0) (hA : ds.length + 1 ≤ FTP_RETRY_COUNT) (hS : ds.sum ≤ target) :
    download_task L target die (ds.map DStep.failRetr ++ [DStep.ok]) =
      (TaskOutcome.success target, restOffsets 0 ds) ∧
    (restOffsets 0 ds).head? = some 0 := by
  constructor
  · unfold download_task
    rw [dlLoop_failRetr_then_ok target die hT ds 0 FTP_RETRY_COUNT hA]
    have h : 0 + ds.sum + (target - (0 + ds.sum)) = target := by omega
    rw [h]
  · cases ds <;> simp [restOffsets]

/-- Witness for C1 at a concrete input: 5 stale local bytes are ignored, two
failed attempts delivering 3 and 4 bytes are resumed at offsets 0, 3, 7, and
the download completes at the remote size 10. -/
theorem C1_download_truncates_then_resumes_witness :
    download_task 5 10 false ([3, 4].map DStep.failRetr ++ [DStep.ok]) =
      (TaskOutcome.success 10, restOffsets 0 [3, 4]) ∧
    (restOffsets 0 [3, 4]).head? = some 0 :=
  C1_download_truncates_then_resumes 5 10 false [3, 4] (by decide) (by decide) (by decide)

theorem ulLoop_stor_retries (target : Nat) (die : Bool) (hT : target ≠ 0) :
    ∀ (ds : List (Bool × Nat)) (attempts : Nat) (g : Bool × Nat), ds.length + 1 ≤ attempts →
    ulLoop target die false attempts
        (ds.map (fun x => UStep.failStor x.1 x.2) ++ [UStep.ok g.1 g.2]) =
      (UOutcome.success, ds.map uploadRestOf ++ [uploadRestOf g]) := by
  intro ds
  induction ds with
  | nil =>
      intro attempts g _
      simp [ulLoop, trackerPercent, hT, uploadRestOf]
  | cons d rest ih =>
      intro attempts g hA
      simp only [List.length_cons] at hA
      have h1 : ¬ attempts - 1 < 1 := by omega
      have h2 : rest.length + 1 ≤ attempts - 1 := by omega
      simp only [List.map_cons, List.cons_append, ulLoop, trackerPercent, hT, if_false,
        if_neg h1, Bool.not_false, Bool.and_true, List.append_eq]
      rw [ih (attempts - 1) g h2]
      simp [uploadRestOf]

/-- C7 — counterexample.  The target name is present in the remote listing
with size 5, yet the very first attempt stores from offset 0 — the claim
predicts a resume-aware store from offset 5.  `upload_task` only queries the
remote size when `first_access` is already false, i.e. from the second
attempt on; on the first attempt an existing remote file is rewritten. -/
theorem C7_counterexample :
    (upload_task 10 false [UStep.ok true 5]).2 = [0] ∧
    (upload_task 10 false [UStep.ok true 5]).2 ≠ [5] :=
  ⟨rfl, by decide⟩

/-- C7 — amended.  The first `STOR` of `upload_task` always starts from
offset 0, even when the target name already exists remotely (the remote file
is rewritten); on each *retry* attempt the remote is re-listed and, when the
name is present, its size is re-queried fresh and used as the resume offset
(offset 0 when absent) — as listed by `uploadRestOf` per retry step. -/
theorem C7_upload_first_attempt_rewrites (target : Nat) (die : Bool) (fl : Bool)
    (fsize : Nat) (ds : List (Bool × Nat)) (g : Bool × Nat)
    (hT : target ≠ 0) (hA : ds.length + 2 ≤ FTP_RETRY_COUNT) :
    upload_task target die
        (UStep.failStor fl fsize ::
          (ds.map (fun x => UStep.failStor x.1 x.2) ++ [UStep.ok g.1 g.2])) =
      (UOutcome.success, 0 :: (ds.map uploadRestOf ++ [uploadRestOf g])) := by
  have h2 : ds.length + 1 ≤ FTP_RETRY_COUNT - 1 := by
    simp only [FTP_RETRY_COUNT] at hA ⊢
    omega
  unfold upload_task
  simp only [ulLoop, trackerPercent, hT, if_false, Bool.not_true, Bool.and_false,
    FTP_RETRY_COUNT, List.append_eq]
  rw [ulLoop_stor_retries target die hT ds 9 g (by simpa [FTP_RETRY_COUNT] using h2)]
  simp

/-- Witness for C7 at a concrete input: remote file listed with size 4 on
the first attempt (stored from 0 anyway), retry sees size 6 (resumed from
6), final attempt sees size 8 (resumed from 8). -/
theorem C7_upload_first_attempt_rewrites_witness :
    upload_task 10 false
        (UStep.failStor true 4 ::
          ([(true, 6)].map (fun x => UStep.failStor x.1 x.2) ++ [UStep.ok true 8])) =
      (UOutcome.success, 0 :: ([(true, 6)].map uploadRestOf ++ [uploadRestOf (true, 8)])) :=
  C7_upload_first_attempt_rewrites 10 false true 4 [(true, 6)] (true, 8) (by decide)
    (by decide)

/-- C6 — confirmed.  After a successful `on_checkpoint_written(p, params)`
whose file `p` is still present and readable, constructing a fresh monitor
over the same folder and version (modelled by `newMonitor` reading the same
status file) reloads the persisted status: the fresh instance's
`current_checkpoint` is `p` and its `current_params` is `params` with the
`checkpoint` key set to `p`. -/
theorem C6_status_roundtrip (m : Monitor) (fs : FS) (p : String) (params : Params)
    (rn : Int) (hw : (on_checkpoint_written m fs p params).1 = none)
    (hp : p ∈ (on_checkpoint_written m fs p params).2.2.files) :
    (newMonitor rn (on_checkpoint_written m fs p params).2.2).1.current_checkpoint = p ∧
    (newMonitor rn (on_checkpoint_written m fs p params).2.2).1.current_params =
      dictSet params "checkpoint" p := by
  have hmem := on_checkpoint_written_mem m fs p params hw
  have hst := on_checkpoint_written_status m fs p params hmem
  have hcontains : (on_checkpoint_written m fs p params).2.2.files.contains p = true :=
    List.elem_eq_true_of_mem hp
  simp only [newMonitor, hst, _load_current_status, dictGet_dictSet_self, hcontains,
    Bool.not_true, Bool.and_false, Bool.false_eq_true, if_false]
  exact ⟨_add_checkpoint_cc _ _ _, _add_checkpoint_params _ _ _⟩

/-- Witness for C6 at a concrete input: writing file `a` with one extra
param and reconstructing the monitor recovers pointer and params. -/
theorem C6_status_roundtrip_witness :
    (newMonitor 5 (on_checkpoint_written ⟨[], "", [], 5⟩ ⟨["a"], none, []⟩ "a"
        [("epoch", "1")]).2.2).1.current_checkpoint = "a" ∧
    (newMonitor 5 (on_checkpoint_written ⟨[], "", [], 5⟩ ⟨["a"], none, []⟩ "a"
        [("epoch", "1")]).2.2).1.current_params =
      dictSet [("epoch", "1")] "checkpoint" "a" :=
  C6_status_roundtrip ⟨[], "", [], 5⟩ ⟨["a"], none, []⟩ "a" [("epoch", "1")] 5
    (by decide) (by decide)

theorem reset_idem (m : Monitor) (fs : FS) :
    reset (reset m fs).1 (reset m fs).2 = reset m fs := by
  simp [reset, _save_current_status, dictSet_dictSet]

/-- C10 — confirmed.  After a successful `on_checkpoint_written(p, params)`,
`reset()` clears the current pointer and the history and persists — but
`current_params` is only updated in its `checkpoint` key (set to the empty
string by `_save_current_status`); every other key of `params` survives in
memory and in the persisted status, which is `params` with `checkpoint` set
to `""`, not an empty record.  A second `reset()` reproduces the exact same
state. -/
theorem C10_reset_partial_clear (m : Monitor) (fs : FS) (p : String) (params : Params)
    (hw : (on_checkpoint_written m fs p params).1 = none) :
    (reset (on_checkpoint_written m fs p params).2.1
        (on_checkpoint_written m fs p params).2.2).1.current_checkpoint = "" ∧
    (reset (on_checkpoint_written m fs p params).2.1
        (on_checkpoint_written m fs p params).2.2).1.checkpoints = [] ∧
    (reset (on_checkpoint_written m fs p params).2.1
        (on_checkpoint_written m fs p params).2.2).1.current_params =
      dictSet params "checkpoint" "" ∧
    (reset (on_checkpoint_written m fs p params).2.1
        (on_checkpoint_written m fs p params).2.2).2.status =
      some (dictSet params "checkpoint" "") ∧
    (∀ k, k ≠ "checkpoint" →
      dictGet (reset (on_checkpoint_written m fs p params).2.1
        (on_checkpoint_written m fs p params).2.2).1.current_params k = dictGet params k) ∧
    reset (reset (on_checkpoint_written m fs p params).2.1
        (on_checkpoint_written m fs p params).2.2).1
      (reset (on_checkpoint_written m fs p params).2.1
        (on_checkpoint_written m fs p params).2.2).2 =
      reset (on_checkpoint_written m fs p params).2.1
        (on_checkpoint_written m fs p params).2.2 := by
  have hmem := on_checkpoint_written_mem m fs p params hw
  have hps := on_checkpoint_written_params m fs p params hmem
  refine ⟨?_, ?_, ?_, ?_, ?_, reset_idem _ _⟩
  · simp [reset, _save_current_status]
  · simp [reset, _save_current_status]
  · simp [reset, _save_current_status, hps, dictSet_dictSet]
  · simp [reset, _save_current_status, hps, dictSet_dictSet]
  · intro k hk
    simp [reset, _save_current_status, hps, dictSet_dictSet, dictGet_dictSet_ne _ _ _ _ hk]

/-- Witness for C10 at a concrete input: write file `a` with params
`[("epoch", "1")]`, then reset. -/
theorem C10_reset_partial_clear_witness :
    (reset (on_checkpoint_written ⟨[], "", [], 5⟩ ⟨["a"], none, []⟩ "a"
        [("epoch", "1")]).2.1
      (on_checkpoint_written ⟨[], "", [], 5⟩ ⟨["a"], none, []⟩ "a"
        [("epoch", "1")]).2.2).1.current_params = dictSet [("epoch", "1")] "checkpoint" "" ∧
    (reset (on_checkpoint_written ⟨[], "", [], 5⟩ ⟨["a"], none, []⟩ "a"
        [("epoch", "1")]).2.1
      (on_checkpoint_written ⟨[], "", [], 5⟩ ⟨["a"], none, []⟩ "a"
        [("epoch", "1")]).2.2).2.status = some (dictSet [("epoch", "1")] "checkpoint" "") :=
  ⟨(C10_reset_partial_clear ⟨[], "", [], 5⟩ ⟨["a"], none, []⟩ "a" [("epoch", "1")]
      (by decide)).2.2.1,
   (C10_reset_partial_clear ⟨[], "", [], 5⟩ ⟨["a"], none, []⟩ "a" [("epoch", "1")]
      (by decide)).2.2.2.1⟩

theorem rotate_window (c : Nat) (hc : 1 ≤ c) (files₀ : List String) (hnd : files₀.Nodup)
    (done : List String) (p : String) (trace₀ : List String) (st : Option Params)
    (cc : String) (cp : Params)
    (hnd2 : (done ++ [p]).Nodup) (hmem : ∀ q ∈ done, q ∈ files₀) :
    (rotate_checkpoints
        { checkpoints := keptWindow c done ++ [p], current_checkpoint := cc,
          current_params := cp, rotate_number := (c : Int) }
        { files := files₀.filter (fun q => decide (q ∉ evicted c done)),
          status := st, removedTrace := trace₀ ++ evicted c done } none).2 =
      ({ checkpoints := keptWindow c (done ++ [p]), current_checkpoint := cc,
         current_params := cp, rotate_number := (c : Int) },
       { files := files₀.filter (fun q => decide (q ∉ evicted c (done ++ [p]))),
         status := st, removedTrace := trace₀ ++ evicted c (done ++ [p]) }) := by
  have hcI : ¬ ((c : Int) < 1) := by omega
  have hdn : done.Nodup := (List.nodup_append.mp hnd2).1
  simp only [rotate_checkpoints, resolveRotateArg, if_neg hcI, Int.toNat_natCast]
  by_cases hdc : done.length < c
  · have h1 : done.length - c = 0 := by omega
    have h2 : keptWindow c done = done := by simp [keptWindow, h1]
    have hlen0 : (keptWindow c done ++ [p]).length - c = 0 := by
      rw [h2]
      simp only [List.length_append, List.length_singleton]
      omega
    have hkw2 : keptWindow c (done ++ [p]) = done ++ [p] := by
      simp only [keptWindow, List.length_append, List.length_singleton]
      have h0 : done.length + 1 - c = 0 := by omega
      rw [h0, List.drop_zero]
    have hev1 : evicted c done = [] := by simp [evicted, h1]
    have hev2 : evicted c (done ++ [p]) = [] := by
      simp only [evicted, List.length_append, List.length_singleton]
      have h0 : done.length + 1 - c = 0 := by omega
      rw [h0, List.take_zero]
    rw [hlen0]
    simp [h2, hkw2, hev1, hev2]
  · push_neg at hdc
    have hw : (keptWindow c done).length = c := by
      simp only [keptWindow, List.length_drop]
      omega
    obtain ⟨q₀, t, hq⟩ : ∃ q₀ t, keptWindow c done = q₀ :: t := by
      cases hkw : keptWindow c done with
      | nil => rw [hkw] at hw; simp at hw; omega
      | cons a b => exact ⟨a, b, rfl⟩
    have hq' : done.drop (done.length - c) = q₀ :: t := hq
    have hq₀done : q₀ ∈ done := by
      have hmm : q₀ ∈ done.drop (done.length - c) := by
        rw [hq']
        exact List.mem_cons_self _ _
      exact List.drop_subset _ _ hmm
    have hq₀ev : q₀ ∉ evicted c done := by
      have hsplit := List.take_append_drop (done.length - c) done
      have hnd3 : (done.take (done.length - c) ++ done.drop (done.length - c)).Nodup := by
        rw [hsplit]; exact hdn
      have hdisj := (List.nodup_append.mp hnd3).2.2
      intro hmem2
      refine hdisj hmem2 ?_
      rw [hq']
      exact List.mem_cons_self _ _
    have hq₀f : q₀ ∈ files₀ := hmem q₀ hq₀done
    have hq₀mem : q₀ ∈ files₀.filter (fun q => decide (q ∉ evicted c done)) := by
      simp [List.mem_filter, hq₀f, hq₀ev]
    have hevs : evicted c (done ++ [p]) = evicted c done ++ [q₀] := by
      simp only [evicted, List.length_append, List.length_singleton]
      have harith : done.length + 1 - c = (done.length - c) + 1 := by omega
      rw [harith, List.take_append_of_le_length (by omega), List.take_add, hq']
      simp
    have hkws : keptWindow c (done ++ [p]) = t ++ [p] := by
      simp only [keptWindow, List.length_append, List.length_singleton]
      have harith : done.length + 1 - c = (done.length - c) + 1 := by omega
      rw [harith, List.drop_append_of_le_length (by omega), ← List.drop_drop, hq']
      simp
    have hlen : (keptWindow c done ++ [p]).length - c = 1 := by
      simp only [List.length_append, List.length_singleton, hw]
      omega
    have hshape : keptWindow c done ++ [p] = q₀ :: (t ++ [p]) := by rw [hq]; rfl
    rw [hlen, hshape, hkws, hevs]
    have htake : (q₀ :: (t ++ [p])).take 1 = [q₀] := rfl
    have hdrop : (q₀ :: (t ++ [p])).drop 1 = t ++ [p] := rfl
    rw [htake, hdrop]
    simp only [List.foldl_cons, List.foldl_nil]
    have hcontains : (files₀.filter (fun q => decide (q ∉ evicted c done))).contains q₀ =
        true := List.elem_eq_true_of_mem hq₀mem
    have hfiles : (files₀.filter (fun q => decide (q ∉ evicted c done))).erase q₀ =
        files₀.filter (fun q => decide (q ∉ evicted c done ++ [q₀])) := by
      have hfnd : (files₀.filter (fun q => decide (q ∉ evicted c done))).Nodup :=
        hnd.filter _
      rw [hfnd.erase_eq_filter q₀, List.filter_filter]
      refine List.filter_congr ?_
      intro x hx
      rw [Bool.eq_iff_iff]
      simp only [Bool.and_eq_true, bne_iff_ne, decide_eq_true_eq, List.mem_append,
        List.mem_singleton, ne_eq]
      tauto
    have hosr : osRemove
        { files := files₀.filter (fun q => decide (q ∉ evicted c done)),
          status := st, removedTrace := trace₀ ++ evicted c done } q₀ =
        { files := files₀.filter (fun q => decide (q ∉ evicted c done ++ [q₀])),
          status := st, removedTrace := (trace₀ ++ evicted c done) ++ [q₀] } := by
      unfold osRemove
      rw [if_pos hcontains, hfiles]
    rw [hosr]
    simp [List.append_assoc]

theorem write_step_window (c : Nat) (hc : 1 ≤ c) (files₀ : List String)
    (hnd : files₀.Nodup) (done : List String) (p : String) (ps : Params)
    (trace₀ : List String) (st : Option Params) (cc : String) (cp : Params)
    (hnd2 : (done ++ [p]).Nodup) (hmem : ∀ q ∈ done ++ [p], q ∈ files₀) (hp : p ≠ "") :
    on_checkpoint_written (winMonitor c done cc cp) (winFS c files₀ done trace₀ st) p ps =
      (none, winMonitor c (done ++ [p]) p (dictSet ps "checkpoint" p),
        winFS c files₀ (done ++ [p]) trace₀ (some (dictSet ps "checkpoint" p))) := by
  have hpd : p ∉ done := by
    have hdisj := (List.nodup_append.mp hnd2).2.2
    intro h
    exact hdisj h (List.mem_singleton_self p)
  have hpf : p ∈ files₀ := hmem p (List.mem_append_right _ (List.mem_singleton_self p))
  have hpev : p ∉ evicted c done := fun h => hpd (List.take_subset _ _ h)
  have hpmem : p ∈ files₀.filter (fun q => decide (q ∉ evicted c done)) := by
    simp [List.mem_filter, hpf, hpev]
  have hdm : ∀ q ∈ done, q ∈ files₀ := fun q hq => hmem q (List.mem_append_left _ hq)
  have hrw := rotate_window c hc files₀ hnd done p trace₀
    (some (dictSet ps "checkpoint" p)) p (dictSet ps "checkpoint" p) hnd2 hdm
  simp only [on_checkpoint_written, winMonitor, winFS, _add_checkpoint,
    _save_current_status, ne_eq, hp, not_false_eq_true, if_true, hpmem, ite_true]
  rw [hrw]

theorem writeAll_window (c : Nat) (hc : 1 ≤ c) (files₀ : List String) (hnd : files₀.Nodup) :
    ∀ (rest : List (String × Params)) (done : List String) (trace₀ : List String)
      (st : Option Params) (cc : String) (cp : Params),
      (done ++ rest.map Prod.fst).Nodup →
      (∀ q ∈ done ++ rest.map Prod.fst, q ∈ files₀) →
      (∀ q ∈ rest.map Prod.fst, q ≠ "") →
      ∃ cc2 cp2 st2,
        writeAll (winMonitor c done cc cp) (winFS c files₀ done trace₀ st) rest =
          (none, winMonitor c (done ++ rest.map Prod.fst) cc2 cp2,
            winFS c files₀ (done ++ rest.map Prod.fst) trace₀ st2) := by
  intro rest
  induction rest with
  | nil =>
      intro done trace₀ st cc cp _ _ _
      exact ⟨cc, cp, st, by simp [writeAll]⟩
  | cons w rest ih =>
      intro done trace₀ st cc cp hnd2 hmem hne
      obtain ⟨p, ps⟩ := w
      have hassoc : done ++ (p, ps).fst :: rest.map Prod.fst =
          (done ++ [p]) ++ rest.map Prod.fst := by simp
      have hnd3 : ((done ++ [p]) ++ rest.map Prod.fst).Nodup := by
        rw [← hassoc]
        simpa using hnd2
      have hmem3 : ∀ q ∈ (done ++ [p]) ++ rest.map Prod.fst, q ∈ files₀ := by
        intro q hq
        refine hmem q ?_
        rw [List.map_cons, hassoc]
        exact hq
      have hne3 : ∀ q ∈ rest.map Prod.fst, q ≠ "" := by
        intro q hq
        exact hne q (by simp [hq])
      have hp : p ≠ "" := hne p (by simp)
      have hnd4 : (done ++ [p]).Nodup := hnd3.sublist (List.sublist_append_left _ _)
      have hmem4 : ∀ q ∈ done ++ [p], q ∈ files₀ := fun q hq =>
        hmem3 q (List.mem_append_left _ hq)
      have hstep := write_step_window c hc files₀ hnd done p ps trace₀ st cc cp
        hnd4 hmem4 hp
      obtain ⟨cc2, cp2, st2, hrec⟩ := ih (done ++ [p]) trace₀
        (some (dictSet ps "checkpoint" p)) p (dictSet ps "checkpoint" p) hnd3 hmem3 hne3
      refine ⟨cc2, cp2, st2, ?_⟩
      simp only [writeAll, hstep, hrec, List.map_cons]
      rw [hassoc]

/-- C5 — confirmed.  On a fresh monitor with rotation count `c ≥ 1`, after
`k` successful `on_checkpoint_written` calls for pairwise-distinct files that
exist on disk, the in-memory history is exactly the `min k c`
most-recently-written paths in chronological order, the files removed from
disk (in removal order, oldest first) are exactly the written paths older
than the kept window, and the surviving files are the original ones minus
those evictions. -/
theorem C5_rotation_window (c : Nat) (ws : List (String × Params)) (files₀ : List String)
    (hc : 1 ≤ c) (hnd : files₀.Nodup) (hwnd : (ws.map Prod.fst).Nodup)
    (hmem : ∀ q ∈ ws.map Prod.fst, q ∈ files₀) (hne : ∀ q ∈ ws.map Prod.fst, q ≠ "") :
    (writeAll (newMonitor (c : Int) ⟨files₀, none, []⟩).1
      (newMonitor (c : Int) ⟨files₀, none, []⟩).2 ws).1 = none ∧
    (writeAll (newMonitor (c : Int) ⟨files₀, none, []⟩).1
      (newMonitor (c : Int) ⟨files₀, none, []⟩).2 ws).2.1.checkpoints =
      (ws.map Prod.fst).drop (ws.length - c) ∧
    (writeAll (newMonitor (c : Int) ⟨files₀, none, []⟩).1
      (newMonitor (c : Int) ⟨files₀, none, []⟩).2 ws).2.1.checkpoints.length =
      min ws.length c ∧
    (writeAll (newMonitor (c : Int) ⟨files₀, none, []⟩).1
      (newMonitor (c : Int) ⟨files₀, none, []⟩).2 ws).2.2.removedTrace =
      (ws.map Prod.fst).take (ws.length - c) ∧
    (writeAll (newMonitor (c : Int) ⟨files₀, none, []⟩).1
      (newMonitor (c : Int) ⟨files₀, none, []⟩).2 ws).2.2.files =
      files₀.filter (fun q => decide (q ∉ (ws.map Prod.fst).take (ws.length - c))) := by
  have hcI : (c : Int) ≠ 0 := by omega
  have hM : (newMonitor (c : Int) ⟨files₀, none, []⟩).1 =
      winMonitor c [] "" [("checkpoint", "")] := by
    simp [newMonitor, reset, _save_current_status, winMonitor, keptWindow,
      coerceRotateNumber, hcI, dictSet]
  have hF : (newMonitor (c : Int) ⟨files₀, none, []⟩).2 =
      winFS c files₀ [] [] (some [("checkpoint", "")]) := by
    have hflt : files₀.filter (fun q => decide (q ∉ evicted c ([] : List String))) =
        files₀ := List.filter_eq_self.mpr (fun a _ => by simp [evicted])
    simp [newMonitor, reset, _save_current_status, winFS, evicted, hcI, dictSet, hflt]
  rw [hM, hF]
  obtain ⟨cc2, cp2, st2, hrun⟩ := writeAll_window c hc files₀ hnd ws [] []
    (some [("checkpoint", "")]) "" [("checkpoint", "")] (by simpa using hwnd)
    (by simpa using hmem) hne
  rw [hrun]
  refine ⟨rfl, by simp [winMonitor, keptWindow, List.length_map],
    by simp only [winMonitor, keptWindow, List.nil_append, List.length_drop,
        List.length_map]; omega,
    by simp [winFS, evicted, List.length_map],
    by simp [winFS, evicted, List.length_map]⟩

/-- Witness for C5 at a concrete input: rotate count 2, four writes
`A, B, C, D` — history ends as `[C, D]`, files `A, B` are removed from disk
in that order. -/
theorem C5_rotation_window_witness :
    (writeAll (newMonitor ((2 : Nat) : Int) ⟨["A", "B", "C", "D"], none, []⟩).1
      (newMonitor ((2 : Nat) : Int) ⟨["A", "B", "C", "D"], none, []⟩).2
      [("A", []), ("B", []), ("C", []), ("D", [])]).1 = none ∧
    (writeAll (newMonitor ((2 : Nat) : Int) ⟨["A", "B", "C", "D"], none, []⟩).1
      (newMonitor ((2 : Nat) : Int) ⟨["A", "B", "C", "D"], none, []⟩).2
      [("A", []), ("B", []), ("C", []), ("D", [])]).2.1.checkpoints =
      ([("A", ([] : Params)), ("B", []), ("C", []), ("D", [])].map Prod.fst).drop
        ([("A", ([] : Params)), ("B", []), ("C", []), ("D", [])].length - 2) ∧
    (writeAll (newMonitor ((2 : Nat) : Int) ⟨["A", "B", "C", "D"], none, []⟩).1
      (newMonitor ((2 : Nat) : Int) ⟨["A", "B", "C", "D"], none, []⟩).2
      [("A", []), ("B", []), ("C", []), ("D", [])]).2.2.removedTrace =
      ([("A", ([] : Params)), ("B", []), ("C", []), ("D", [])].map Prod.fst).take
        ([("A", ([] : Params)), ("B", []), ("C", []), ("D", [])].length - 2) :=
  ⟨(C5_rotation_window 2 [("A", []), ("B", []), ("C", []), ("D", [])] ["A", "B", "C", "D"]
      (by decide) (by decide) (by decide) (by decide) (by decide)).1,
   (C5_rotation_window 2 [("A", []), ("B", []), ("C", []), ("D", [])] ["A", "B", "C", "D"]
      (by decide) (by decide) (by decide) (by decide) (by decide)).2.1,
   (C5_rotation_window 2 [("A", []), ("B", []), ("C", []), ("D", [])] ["A", "B", "C", "D"]
      (by decide) (by decide) (by decide) (by decide) (by decide)).2.2.2.1⟩

end Sizif
